import Mathlib

/-!
Shallow embedding of `src/main.rs` (a SurrealDB CRUD demo): the dynamic
value type, the typed `TryFrom<W<Value>>` conversions, the `XTake` /
`XTakeVal` field accessors on `Object`, and the pure response-handling
parts of the `Store` operations, together with proofs of the spec's
claims about them.
-/

namespace SurrealCrud

/-- A numeric payload (`surrealdb::sql::Number`). The engine's integer
truncation `as_int` is abstracted as the integer it yields, since only
its result is observed by this program. -/
structure Number where
  asInt : Int
deriving DecidableEq, Repr

/-- A record reference (`surrealdb::sql::Thing`): a table name and a key. -/
structure Thing where
  tb : String
  id : String
deriving DecidableEq, Repr

/-- Modelled from the engine: `Thing`'s `Display`, the canonical
`table:key` text form of a record reference. -/
def Thing.toText (t : Thing) : String :=
  t.tb ++ ":" ++ t.id

/-- The dynamic value type (`surrealdb::sql::Value`), restricted to the
variants this program distinguishes; `vNone` and `null` stand for
`Value::None` and `Value::Null`, `vtrue`/`vfalse` for the explicit
boolean variants. An object is its list of fields (the engine keeps
keys unique). -/
inductive Value where
  | vNone : Value
  | null : Value
  | vfalse : Value
  | vtrue : Value
  | number : Number → Value
  | strand : String → Value
  | thing : Thing → Value
  | object : List (String × Value) → Value
  | array : List Value → Value

/-- A dynamic object: an ordered field map (`surrealdb::sql::Object`,
a `BTreeMap<String, Value>` with unique keys). -/
abbrev Object := List (String × Value)

/-- The program's error enumeration (`enum Error` in `main.rs`); the
wrapped engine and IO errors are abstracted by their message. -/
inductive Error where
  | CtxFail : Error
  | XValueNotOfType : String → Error
  | XPropertyNotFound : String → Error
  | StoreFailToCreate : String → Error
  | SurrealError : String → Error
  | IOError : String → Error
deriving DecidableEq, Repr

/-- `impl TryFrom<W<Value>> for Object`. -/
def tryIntoObject : Value → Except Error Object
  | .object obj => .ok obj
  | _ => .error (.XValueNotOfType "Object")

/-- `impl TryFrom<W<Value>> for Array`. -/
def tryIntoArray : Value → Except Error (List Value)
  | .array obj => .ok obj
  | _ => .error (.XValueNotOfType "Array")

/-- `impl TryFrom<W<Value>> for i64`: a numeric payload is truncated via
the engine's `as_int`; everything else is a type error. -/
def tryIntoI64 : Value → Except Error Int
  | .number obj => .ok obj.asInt
  | _ => .error (.XValueNotOfType "i64")

/-- `impl TryFrom<W<Value>> for bool`: only the explicit `True`/`False`
variants convert; everything else is a type error. -/
def tryIntoBool : Value → Except Error Bool
  | .vfalse => .ok false
  | .vtrue => .ok true
  | _ => .error (.XValueNotOfType "bool")

/-- `impl TryFrom<W<Value>> for String`: a strand is returned verbatim,
a record reference as its canonical text; everything else is a type
error. -/
def tryIntoString : Value → Except Error String
  | .strand s => .ok s
  | .thing t => .ok t.toText
  | _ => .error (.XValueNotOfType "String")

/-- Modelled from the engine: `Value::is_true`, the coercion used by the
`bool` field accessor: `True` and the strand "true" (case-insensitive)
count as true, everything else as false. -/
def Value.isTrue : Value → Bool
  | .vtrue => true
  | .strand s => s.toLower == "true"
  | _ => false

/-- `Object::remove(k)` of the engine's `BTreeMap`: the value stored at
key `k`, if any, together with the object with that key removed. -/
def objRemove (o : Object) (k : String) : Option Value × Object :=
  ((o.find? (fun p => p.1 == k)).map Prod.snd,
   o.filter (fun p => p.1 != k))

/-- `impl XTakeImpl<String> for Object`: remove the field and convert it,
returning the converted value, `none` when absent, or the conversion
error. The second component is the mutated object. -/
def xTakeString (o : Object) (k : String) : Except Error (Option String) × Object :=
  match (objRemove o k).1.map tryIntoString with
  | none => (.ok none, (objRemove o k).2)
  | some (.ok val) => (.ok (some val), (objRemove o k).2)
  | some (.error ex) => (.error ex, (objRemove o k).2)

/-- `impl XTakeImpl<i64> for Object`: same shape as the `String` impl. -/
def xTakeI64 (o : Object) (k : String) : Except Error (Option Int) × Object :=
  match (objRemove o k).1.map tryIntoI64 with
  | none => (.ok none, (objRemove o k).2)
  | some (.ok val) => (.ok (some val), (objRemove o k).2)
  | some (.error ex) => (.error ex, (objRemove o k).2)

/-- `impl XTakeImpl<bool> for Object`: remove the field and coerce any
present value with `is_true`; this impl never returns an error. -/
def xTakeBool (o : Object) (k : String) : Except Error (Option Bool) × Object :=
  (.ok ((objRemove o k).1.map Value.isTrue), (objRemove o k).2)

/-- The `XTakeVal` blanket impl specialised to `String`: an absent field
becomes `XPropertyNotFound`. -/
def xTakeValString (o : Object) (k : String) : Except Error String × Object :=
  match xTakeString o k with
  | (.ok (some v), o1) => (.ok v, o1)
  | (.ok none, o1) => (.error (.XPropertyNotFound k), o1)
  | (.error e, o1) => (.error e, o1)

/-- The `XTakeVal` blanket impl specialised to `i64`. -/
def xTakeValI64 (o : Object) (k : String) : Except Error Int × Object :=
  match xTakeI64 o k with
  | (.ok (some v), o1) => (.ok v, o1)
  | (.ok none, o1) => (.error (.XPropertyNotFound k), o1)
  | (.error e, o1) => (.error e, o1)

/-- The `XTakeVal` blanket impl specialised to `bool`. -/
def xTakeValBool (o : Object) (k : String) : Except Error Bool × Object :=
  match xTakeBool o k with
  | (.ok (some v), o1) => (.ok v, o1)
  | (.ok none, o1) => (.error (.XPropertyNotFound k), o1)
  | (.error e, o1) => (.error e, o1)

/-- Modelled from the engine: `Value::first()`, used on each query
result: the first element of an array payload, `Value::None` otherwise
(also for an empty array). -/
def Value.first : Value → Value
  | .array (v :: _) => v
  | _ => .vNone

/-- One per-statement result batch from `Datastore::execute`: either the
engine's error (abstracted by its message) or a success value tree. -/
abbrev Response := Except String Value

/-- The observable result of one `Store` method as written in `main.rs`:
a returned value, a returned `Error`, or a process abort through
`expect` (carrying the expectation message). -/
inductive Outcome (α : Type) where
  | ok : α → Outcome α
  | err : Error → Outcome α
  | panicked : String → Outcome α
deriving DecidableEq, Repr

/-- Whether an outcome is an `expect` abort. -/
def Outcome.isPanicked : Outcome α → Bool
  | .panicked _ => true
  | _ => false

/-- Rust's `?` operator inside a `Store` method: an `Err` short-circuits
into the method's error outcome, an `Ok` continues. -/
def bindE : Except Error α → (α → Outcome β) → Outcome β
  | .error e, _ => .err e
  | .ok a, k => k a

/-- Split a character list at its first colon, when it has one. -/
def splitColon : List Char → Option (List Char × List Char)
  | [] => none
  | c :: cs =>
    if c = ':' then some ([], cs)
    else (splitColon cs).map (fun p => (c :: p.1, p.2))

/-- Modelled from the spec: the engine's record-reference parser
`surrealdb::sql::thing`, which accepts identifiers of the canonical
`table:key` form (both parts nonempty) and rejects anything else with
an engine error (surfaced through the `From<surrealdb::Error>`
conversion). -/
def thingParse (s : String) : Except Error Thing :=
  match splitColon s.data with
  | some (tb, i) =>
    if tb.isEmpty ∨ i.isEmpty then .error (.SurrealError "Parse error")
    else .ok ⟨String.mk tb, String.mk i⟩
  | none => .error (.SurrealError "Parse error")

/-- `Store::get_list`, as a function of the engine's response batches:
take the first batch (`expect` on none), propagate its engine error,
convert it to an array, and convert each element to an object. -/
def storeGetList (res : List Response) : Outcome (List Object) :=
  match res with
  | [] => .panicked "Did not get a response"
  | r :: _ =>
    bindE (r.mapError Error.SurrealError) fun v =>
    bindE (tryIntoArray v) fun arr =>
    bindE (arr.mapM tryIntoObject) fun objs => .ok objs

/-- The fixed query text `Store::get` sends to the engine. -/
def storeGetSql : String := "SELECT * FROM todo WHERE id = $id"

/-- The request `Store::get(uid)` issues: the fixed query text together
with the parameter bindings (the parsed identifier bound to `$id`);
an identifier that fails to parse issues no request. -/
def storeGetRequest (uid : String) : Except Error (String × List (String × Value)) :=
  (thingParse uid).map (fun th => (storeGetSql, [("id", Value.thing th)]))

/-- `Store::get`, as a function of the identifier and the engine's
response batches: parse the identifier, take the first batch (`expect`
on none), propagate its engine error, and convert `result.first()` to
an object. -/
def storeGet (uid : String) (res : List Response) : Outcome Object :=
  bindE (storeGetRequest uid) fun _ =>
  match res with
  | [] => .panicked "Did not get a response!"
  | r :: _ =>
    bindE (r.mapError Error.SurrealError) fun v =>
    bindE (tryIntoObject v.first) fun o => .ok o

/-- `Store::create`, as a function of the engine's response batches:
take the first batch (`expect` on none), propagate its engine error;
if `result.first()` is an object, take its required `id` field,
otherwise fail with `StoreFailToCreate`. -/
def storeCreate (res : List Response) : Outcome String :=
  match res with
  | [] => .panicked "id not returned"
  | r :: _ =>
    bindE (r.mapError Error.SurrealError) fun v =>
    match v.first with
    | .object o => bindE (xTakeValString o "id").1 fun id => .ok id
    | _ => .err (.StoreFailToCreate "exec_create, nothing returned.")

/-- `Store::update`, as a function of the identifier and the engine's
response batches: parse the identifier, take the first batch (`expect`
on none), propagate its engine error; if `result.first()` is an object,
take its required `id` field, otherwise fail with `StoreFailToCreate`. -/
def storeUpdate (tid : String) (res : List Response) : Outcome String :=
  bindE (thingParse tid) fun _ =>
  match res with
  | [] => .panicked "id not returned"
  | r :: _ =>
    bindE (r.mapError Error.SurrealError) fun v =>
    match v.first with
    | .object o => bindE (xTakeValString o "id").1 fun id => .ok id
    | _ => .err (.StoreFailToCreate ("exec_merge " ++ tid ++ ", nothing returned."))

/-- `Store::delete`, as a function of the identifier and the engine's
response batches: parse the identifier, take the first batch (`expect`
on none), propagate its engine error, and echo the input identifier
back unchanged. -/
def storeDelete (tid : String) (res : List Response) : Outcome String :=
  bindE (thingParse tid) fun _ =>
  match res with
  | [] => .panicked "Did not get a response"
  | r :: _ =>
    bindE (r.mapError Error.SurrealError) fun _ => .ok tid

/-! ### Helper lemmas -/

/-- A key never survives its own removal. -/
theorem objRemove_removed (o : Object) (f : String) :
    (objRemove (objRemove o f).2 f).1 = none := by
  simp only [objRemove]
  rw [Option.map_eq_none', List.find?_eq_none]
  intro x hx
  simp only [List.mem_filter, bne_iff_ne, ne_eq] at hx
  simp [hx.2]

/-- A field absent from an object is not returned by removal. -/
theorem objRemove_fst_eq_none (o : Object) (f : String)
    (h : ∀ p ∈ o, p.1 ≠ f) : (objRemove o f).1 = none := by
  simp only [objRemove]
  rw [Option.map_eq_none', List.find?_eq_none]
  intro x hx
  simp [h x hx]

/-- The mutated object returned by the `String` accessor is the removal
result, whichever branch is taken. -/
theorem xTakeString_snd (o : Object) (f : String) :
    (xTakeString o f).2 = (objRemove o f).2 := by
  unfold xTakeString
  cases (objRemove o f).1.map tryIntoString with
  | none => rfl
  | some r => cases r <;> rfl

/-- The mutated object returned by the `i64` accessor is the removal
result, whichever branch is taken. -/
theorem xTakeI64_snd (o : Object) (f : String) :
    (xTakeI64 o f).2 = (objRemove o f).2 := by
  unfold xTakeI64
  cases (objRemove o f).1.map tryIntoI64 with
  | none => rfl
  | some r => cases r <;> rfl

/-- The `String` conversion rejects every variant other than strands and
record references. -/
theorem tryIntoString_not_matching (v : Value)
    (hs : ∀ s, v ≠ .strand s) (ht : ∀ t, v ≠ .thing t) :
    tryIntoString v = .error (.XValueNotOfType "String") := by
  cases v <;> first
    | rfl
    | exact absurd rfl (hs _)
    | exact absurd rfl (ht _)

/-- The `i64` conversion rejects every non-numeric variant. -/
theorem tryIntoI64_not_matching (v : Value) (hn : ∀ n, v ≠ .number n) :
    tryIntoI64 v = .error (.XValueNotOfType "i64") := by
  cases v <;> first
    | rfl
    | exact absurd rfl (hn _)

/-- The `bool` conversion rejects every variant other than the explicit
booleans. -/
theorem tryIntoBool_not_matching (v : Value)
    (ht : v ≠ .vtrue) (hf : v ≠ .vfalse) :
    tryIntoBool v = .error (.XValueNotOfType "bool") := by
  cases v <;> first
    | rfl
    | exact absurd rfl ht
    | exact absurd rfl hf

/-- An absent field makes every optional accessor return `ok none`. -/
theorem xTake_absent (o : Object) (f : String)
    (h : (objRemove o f).1 = none) :
    xTakeString o f = (.ok none, (objRemove o f).2) ∧
    xTakeI64 o f = (.ok none, (objRemove o f).2) ∧
    xTakeBool o f = (.ok none, (objRemove o f).2) := by
  refine ⟨?_, ?_, ?_⟩ <;> simp [xTakeString, xTakeI64, xTakeBool, h]

/-- A `?`-style bind never panics when its continuation never does. -/
theorem bindE_not_panicked (x : Except Error α) (k : α → Outcome β)
    (h : ∀ a, (k a).isPanicked = false) : (bindE x k).isPanicked = false := by
  cases x with
  | error e => rfl
  | ok a => exact h a

/-- `get_list` on a nonempty batch list never reaches the `expect`. -/
theorem storeGetList_cons_not_panicked (r : Response) (rs : List Response) :
    (storeGetList (r :: rs)).isPanicked = false := by
  refine bindE_not_panicked _ _ (fun v => ?_)
  refine bindE_not_panicked _ _ (fun arr => ?_)
  exact bindE_not_panicked _ _ (fun objs => rfl)

/-- `get` on a nonempty batch list never reaches the `expect`. -/
theorem storeGet_cons_not_panicked (uid : String) (r : Response)
    (rs : List Response) : (storeGet uid (r :: rs)).isPanicked = false := by
  refine bindE_not_panicked _ _ (fun q => ?_)
  refine bindE_not_panicked _ _ (fun v => ?_)
  exact bindE_not_panicked _ _ (fun o => rfl)

/-- `create` on a nonempty batch list never reaches the `expect`. -/
theorem storeCreate_cons_not_panicked (r : Response) (rs : List Response) :
    (storeCreate (r :: rs)).isPanicked = false := by
  refine bindE_not_panicked _ _ (fun v => ?_)
  cases v.first <;> first
    | rfl
    | exact bindE_not_panicked _ _ (fun id => rfl)

/-- `update` on a nonempty batch list never reaches the `expect`. -/
theorem storeUpdate_cons_not_panicked (tid : String) (r : Response)
    (rs : List Response) : (storeUpdate tid (r :: rs)).isPanicked = false := by
  refine bindE_not_panicked _ _ (fun th => ?_)
  refine bindE_not_panicked _ _ (fun v => ?_)
  cases v.first <;> first
    | rfl
    | exact bindE_not_panicked _ _ (fun id => rfl)

/-- `delete` on a nonempty batch list never reaches the `expect`. -/
theorem storeDelete_cons_not_panicked (tid : String) (r : Response)
    (rs : List Response) : (storeDelete tid (r :: rs)).isPanicked = false := by
  refine bindE_not_panicked _ _ (fun th => ?_)
  exact bindE_not_panicked _ _ (fun v => rfl)

/-! ### Claims -/

/-- Claim C3: a field name absent from the object gives `ok none` from
every optional take (`x_take`) and `XPropertyNotFound` (the field-missing
error carrying the name) from every required take (`x_take_val`), for
each supported target type. -/
theorem c3_absent_field (o : Object) (f : String)
    (h : ∀ p ∈ o, p.1 ≠ f) :
    (xTakeString o f).1 = .ok none ∧
    (xTakeI64 o f).1 = .ok none ∧
    (xTakeBool o f).1 = .ok none ∧
    (xTakeValString o f).1 = .error (.XPropertyNotFound f) ∧
    (xTakeValI64 o f).1 = .error (.XPropertyNotFound f) ∧
    (xTakeValBool o f).1 = .error (.XPropertyNotFound f) := by
  have hr := objRemove_fst_eq_none o f h
  obtain ⟨h1, h2, h3⟩ := xTake_absent o f hr
  refine ⟨?_, ?_, ?_, ?_, ?_, ?_⟩ <;>
    simp [xTakeValString, xTakeValI64, xTakeValBool, h1, h2, h3]

/-- Claim C3 witness: the field "b" is absent from a one-field object. -/
theorem c3_absent_field_witness :
    (xTakeString [("a", Value.null)] "b").1 = .ok none ∧
    (xTakeI64 [("a", Value.null)] "b").1 = .ok none ∧
    (xTakeBool [("a", Value.null)] "b").1 = .ok none ∧
    (xTakeValString [("a", Value.null)] "b").1 = .error (.XPropertyNotFound "b") ∧
    (xTakeValI64 [("a", Value.null)] "b").1 = .error (.XPropertyNotFound "b") ∧
    (xTakeValBool [("a", Value.null)] "b").1 = .error (.XPropertyNotFound "b") :=
  c3_absent_field [("a", Value.null)] "b"
    (by intro p hp; rw [List.mem_singleton] at hp; subst hp; decide)

/-- Claim C4: a successful optional take removes the field, so a second
take of the same field on the mutated object returns `ok none`, for each
supported target type. -/
theorem c4_destructive_read (o o1 : Object) (f : String) :
    (∀ s, xTakeString o f = (.ok (some s), o1) → (xTakeString o1 f).1 = .ok none) ∧
    (∀ n, xTakeI64 o f = (.ok (some n), o1) → (xTakeI64 o1 f).1 = .ok none) ∧
    (∀ b, xTakeBool o f = (.ok (some b), o1) → (xTakeBool o1 f).1 = .ok none) := by
  have habs : ∀ o2 : Object, o2 = (objRemove o f).2 →
      (objRemove o2 f).1 = none := by
    intro o2 ho2; rw [ho2]; exact objRemove_removed o f
  refine ⟨?_, ?_, ?_⟩
  · intro s h
    have h2 : o1 = (objRemove o f).2 := by
      rw [← xTakeString_snd o f, h]
    simp [xTakeString, habs o1 h2]
  · intro n h
    have h2 : o1 = (objRemove o f).2 := by
      rw [← xTakeI64_snd o f, h]
    simp [xTakeI64, habs o1 h2]
  · intro b h
    have h2 : o1 = (objRemove o f).2 := by
      have h3 := congrArg Prod.snd h
      simp only [xTakeBool] at h3
      exact h3.symm
    simp [xTakeBool, habs o1 h2]

/-- Claim C4 witness: taking the present field "a" succeeds and the
repeat take returns `ok none`, for each target type. -/
theorem c4_destructive_read_witness :
    (xTakeString ((xTakeString [("a", Value.strand "x")] "a").2) "a").1 = .ok none :=
  (c4_destructive_read [("a", Value.strand "x")]
    ((xTakeString [("a", Value.strand "x")] "a").2) "a").1 "x" (by rfl)

/-- Claim C10: when a present field has the wrong variant for `String`
or `i64`, the optional take returns the `WrongType` error and the field
has nevertheless been removed: a repeat take on the mutated object
returns `ok none`. -/
theorem c10_failed_take_still_removes (o : Object) (f : String) (v : Value)
    (hv : (objRemove o f).1 = some v) :
    ((∀ s, v ≠ .strand s) → (∀ t, v ≠ .thing t) →
      xTakeString o f = (.error (.XValueNotOfType "String"), (objRemove o f).2) ∧
      (xTakeString (xTakeString o f).2 f).1 = .ok none) ∧
    ((∀ n, v ≠ .number n) →
      xTakeI64 o f = (.error (.XValueNotOfType "i64"), (objRemove o f).2) ∧
      (xTakeI64 (xTakeI64 o f).2 f).1 = .ok none) := by
  constructor
  · intro hs ht
    have he := tryIntoString_not_matching v hs ht
    constructor
    · simp [xTakeString, hv, he]
    · rw [xTakeString_snd]
      simp [xTakeString, objRemove_removed o f]
  · intro hn
    have he := tryIntoI64_not_matching v hn
    constructor
    · simp [xTakeI64, hv, he]
    · rw [xTakeI64_snd]
      simp [xTakeI64, objRemove_removed o f]

/-- Claim C10 witness: taking the null-valued field "a" as a `String`
errors yet removes the field, and likewise as an `i64`. -/
theorem c10_failed_take_still_removes_witness :
    (xTakeString [("a", Value.null)] "a" =
      (.error (.XValueNotOfType "String"), (objRemove [("a", Value.null)] "a").2) ∧
     (xTakeString (xTakeString [("a", Value.null)] "a").2 "a").1 = .ok none) ∧
    (xTakeI64 [("a", Value.null)] "a" =
      (.error (.XValueNotOfType "i64"), (objRemove [("a", Value.null)] "a").2) ∧
     (xTakeI64 (xTakeI64 [("a", Value.null)] "a").2 "a").1 = .ok none) :=
  ⟨(c10_failed_take_still_removes [("a", Value.null)] "a" Value.null rfl).1
      (fun s h => Value.noConfusion h) (fun t h => Value.noConfusion h),
   (c10_failed_take_still_removes [("a", Value.null)] "a" Value.null rfl).2
      (fun n h => Value.noConfusion h)⟩

/-- Claim C1 counterexample: the `bool` field accessor applied to a
present field holding `Null` (not an explicit boolean) returns
`ok (some false)` via the `is_true` coercion, not the claimed
`WrongType` error. -/
theorem c1_counterexample :
    (xTakeBool [("flag", Value.null)] "flag").1 = .ok (some false) ∧
    (xTakeBool [("flag", Value.null)] "flag").1 ≠
      .error (.XValueNotOfType "bool") :=
  ⟨rfl, fun h => Except.noConfusion h⟩

/-- Claim C1 amended: for targets `String` and `i64`, taking a present
field whose value has a non-matching variant returns the `WrongType`
error naming the target (and never panics); the standalone `bool`
conversion accepts only the explicit `True`/`False` variants and rejects
the rest with `WrongType`, but the `bool` field accessor never produces
`WrongType`: it coerces any present value through `is_true`. -/
theorem c1_wrong_type_amended (o : Object) (f : String) (v : Value)
    (hv : (objRemove o f).1 = some v) :
    ((∀ s, v ≠ .strand s) → (∀ t, v ≠ .thing t) →
      (xTakeString o f).1 = .error (.XValueNotOfType "String")) ∧
    ((∀ n, v ≠ .number n) →
      (xTakeI64 o f).1 = .error (.XValueNotOfType "i64")) ∧
    (v ≠ .vtrue → v ≠ .vfalse →
      tryIntoBool v = .error (.XValueNotOfType "bool")) ∧
    (xTakeBool o f).1 = .ok (some v.isTrue) := by
  refine ⟨?_, ?_, ?_, ?_⟩
  · intro hs ht
    simp [xTakeString, hv, tryIntoString_not_matching v hs ht]
  · intro hn
    simp [xTakeI64, hv, tryIntoI64_not_matching v hn]
  · intro ht hf
    exact tryIntoBool_not_matching v ht hf
  · simp [xTakeBool, hv]

/-- Claim C1 amended witness: at a null-valued field "flag", the
`String` and `i64` accessors report `WrongType`, the direct `bool`
conversion reports `WrongType`, and the `bool` accessor coerces to
`false`. -/
theorem c1_wrong_type_amended_witness :
    (xTakeString [("flag", Value.null)] "flag").1 =
      .error (.XValueNotOfType "String") ∧
    (xTakeI64 [("flag", Value.null)] "flag").1 =
      .error (.XValueNotOfType "i64") ∧
    tryIntoBool Value.null = .error (.XValueNotOfType "bool") ∧
    (xTakeBool [("flag", Value.null)] "flag").1 = .ok (some false) := by
  have h := c1_wrong_type_amended [("flag", Value.null)] "flag" Value.null rfl
  exact ⟨h.1 (fun s hs => Value.noConfusion hs) (fun t ht => Value.noConfusion ht),
         h.2.1 (fun n hn => Value.noConfusion hn),
         h.2.2.1 (fun ht => Value.noConfusion ht) (fun hf => Value.noConfusion hf),
         h.2.2.2⟩

/-- Claim C5: conversion of a dynamic value to `String` returns a strand
verbatim, returns a record reference's canonical text, and rejects every
other variant with `WrongType` naming `String`. -/
theorem c5_string_conversion (v : Value) :
    (∀ s, v = .strand s → tryIntoString v = .ok s) ∧
    (∀ t, v = .thing t → tryIntoString v = .ok t.toText) ∧
    ((∀ s, v ≠ .strand s) → (∀ t, v ≠ .thing t) →
      tryIntoString v = .error (.XValueNotOfType "String")) := by
  refine ⟨?_, ?_, tryIntoString_not_matching v⟩
  · intro s hs; subst hs; rfl
  · intro t ht; subst ht; rfl

/-- Claim C5 witness: a strand comes back verbatim, a record reference
as `table:key`, and a numeric payload is rejected. -/
theorem c5_string_conversion_witness :
    tryIntoString (Value.strand "hello") = .ok "hello" ∧
    tryIntoString (Value.thing ⟨"todo", "1"⟩) = .ok "todo:1" ∧
    tryIntoString (Value.number ⟨7⟩) = .error (.XValueNotOfType "String") :=
  ⟨(c5_string_conversion (Value.strand "hello")).1 "hello" rfl,
   (c5_string_conversion (Value.thing ⟨"todo", "1"⟩)).2.1 ⟨"todo", "1"⟩ rfl,
   (c5_string_conversion (Value.number ⟨7⟩)).2.2
     (fun s hs => Value.noConfusion hs) (fun t ht => Value.noConfusion ht)⟩

/-- Claim C6: conversion of a dynamic value to `i64` returns the
engine's `as_int` truncation of a numeric payload and rejects every
other variant with `WrongType` naming `i64`. -/
theorem c6_i64_conversion (v : Value) :
    (∀ n, v = .number n → tryIntoI64 v = .ok n.asInt) ∧
    ((∀ n, v ≠ .number n) →
      tryIntoI64 v = .error (.XValueNotOfType "i64")) := by
  refine ⟨?_, tryIntoI64_not_matching v⟩
  intro n hn; subst hn; rfl

/-- Claim C6 witness: a numeric payload truncating to 42 converts to 42,
and a strand is rejected. -/
theorem c6_i64_conversion_witness :
    tryIntoI64 (Value.number ⟨42⟩) = .ok 42 ∧
    tryIntoI64 (Value.strand "42") = .error (.XValueNotOfType "i64") :=
  ⟨(c6_i64_conversion (Value.number ⟨42⟩)).1 ⟨42⟩ rfl,
   (c6_i64_conversion (Value.strand "42")).2 (fun n hn => Value.noConfusion hn)⟩

/-- Claim C2 counterexample: when the engine returns no result batch,
`create` aborts through `expect` instead of returning the claimed
`StoreFailToCreate` error value. -/
theorem c2_counterexample :
    storeCreate [] = .panicked "id not returned" := rfl

/-- Claim C2 amended: `create` returns the `StoreFailToCreate` error
(with its diagnostic string) when the returned result value is not a
structured object — which covers an empty result row set, whose
`first()` is `None`; when the engine returns no result batch at all,
`create` panics through `expect` rather than returning an error. -/
theorem c2_create_failure_amended (v : Value) (rest : List Response)
    (h : ∀ o, v.first ≠ Value.object o) :
    storeCreate (Except.ok v :: rest) =
      .err (.StoreFailToCreate "exec_create, nothing returned.") ∧
    storeCreate [] = .panicked "id not returned" := by
  refine ⟨?_, rfl⟩
  have hred : storeCreate (Except.ok v :: rest) =
      (match v.first with
       | .object o => bindE (xTakeValString o "id").1 fun id => .ok id
       | _ => .err (.StoreFailToCreate "exec_create, nothing returned.")) := rfl
  rw [hred]
  cases hf : v.first
  case object o => exact absurd hf (h o)
  all_goals rfl

/-- Claim C2 amended witness: a `Null` result value (whose `first()` is
`None`, hence not an object) yields `StoreFailToCreate`; the empty batch
list panics. -/
theorem c2_create_failure_amended_witness :
    storeCreate [Except.ok Value.null] =
      .err (.StoreFailToCreate "exec_create, nothing returned.") ∧
    storeCreate [] = .panicked "id not returned" :=
  c2_create_failure_amended Value.null []
    (fun o ho => Value.noConfusion ho)

/-- Claim C7: for an identifier that parses as a record reference, when
the first result batch is not an engine error, `delete` returns exactly
the input identifier unchanged, whatever the engine's acknowledgment
value was. -/
theorem c7_delete_identity_echo (tid : String) (th : Thing)
    (hp : thingParse tid = .ok th) (v : Value) (rest : List Response) :
    storeDelete tid (Except.ok v :: rest) = .ok tid := by
  simp [storeDelete, hp, bindE, Except.mapError]

/-- Claim C7 witness: deleting "todo:1" with a `Null` acknowledgment
echoes "todo:1". -/
theorem c7_delete_identity_echo_witness :
    storeDelete "todo:1" [Except.ok Value.null] = .ok "todo:1" :=
  c7_delete_identity_echo "todo:1" ⟨"todo", "1"⟩ rfl Value.null []

/-- Claim C8: when the engine returns an empty sequence of result
batches, each of the five store operations aborts through `expect`
(returning no error value); when at least one batch is returned, the
panic branch is unreachable in all five. -/
theorem c8_empty_response_panics (tid : String) (th : Thing)
    (hp : thingParse tid = .ok th) (res : List Response) (hne : res ≠ []) :
    storeGetList [] = .panicked "Did not get a response" ∧
    storeGet tid [] = .panicked "Did not get a response!" ∧
    storeCreate [] = .panicked "id not returned" ∧
    storeUpdate tid [] = .panicked "id not returned" ∧
    storeDelete tid [] = .panicked "Did not get a response" ∧
    (storeGetList res).isPanicked = false ∧
    (storeGet tid res).isPanicked = false ∧
    (storeCreate res).isPanicked = false ∧
    (storeUpdate tid res).isPanicked = false ∧
    (storeDelete tid res).isPanicked = false := by
  obtain ⟨r, rs, rfl⟩ := List.exists_cons_of_ne_nil hne
  refine ⟨rfl, ?_, rfl, ?_, ?_,
    storeGetList_cons_not_panicked r rs,
    storeGet_cons_not_panicked tid r rs,
    storeCreate_cons_not_panicked r rs,
    storeUpdate_cons_not_panicked tid r rs,
    storeDelete_cons_not_panicked tid r rs⟩
  · simp [storeGet, storeGetRequest, hp, Except.map, bindE]
  · simp [storeUpdate, hp, bindE]
  · simp [storeDelete, hp, bindE]

/-- Claim C8 witness: at identifier "todo:1" and the one-batch response
holding `Null`, every operation panics on the empty batch list and none
panics on the nonempty one. -/
theorem c8_empty_response_panics_witness :
    storeGetList [] = .panicked "Did not get a response" ∧
    storeGet "todo:1" [] = .panicked "Did not get a response!" ∧
    storeCreate [] = .panicked "id not returned" ∧
    storeUpdate "todo:1" [] = .panicked "id not returned" ∧
    storeDelete "todo:1" [] = .panicked "Did not get a response" ∧
    (storeGetList [Except.ok Value.null]).isPanicked = false ∧
    (storeGet "todo:1" [Except.ok Value.null]).isPanicked = false ∧
    (storeCreate [Except.ok Value.null]).isPanicked = false ∧
    (storeUpdate "todo:1" [Except.ok Value.null]).isPanicked = false ∧
    (storeDelete "todo:1" [Except.ok Value.null]).isPanicked = false :=
  c8_empty_response_panics "todo:1" ⟨"todo", "1"⟩ rfl
    [Except.ok Value.null] (by simp)

/-- Claim C9: the query text `get` issues is the same fixed string for
every identifier — the identifier reaches only the parameter bindings,
bound to `$id`, never the query string. -/
theorem c9_get_query_is_fixed (id1 id2 : String) (th1 th2 : Thing)
    (hp1 : thingParse id1 = .ok th1) (hp2 : thingParse id2 = .ok th2) :
    storeGetRequest id1 = .ok (storeGetSql, [("id", Value.thing th1)]) ∧
    storeGetRequest id2 = .ok (storeGetSql, [("id", Value.thing th2)]) ∧
    storeGetSql = "SELECT * FROM todo WHERE id = $id" := by
  refine ⟨?_, ?_, rfl⟩ <;> simp [storeGetRequest, hp1, hp2, Except.map]

/-- Claim C9 witness: the requests for "todo:1" and "user:2" carry the
same fixed query text, with the identifiers only in the bindings. -/
theorem c9_get_query_is_fixed_witness :
    storeGetRequest "todo:1" =
      .ok (storeGetSql, [("id", Value.thing ⟨"todo", "1"⟩)]) ∧
    storeGetRequest "user:2" =
      .ok (storeGetSql, [("id", Value.thing ⟨"user", "2"⟩)]) ∧
    storeGetSql = "SELECT * FROM todo WHERE id = $id" :=
  c9_get_query_is_fixed "todo:1" "user:2" ⟨"todo", "1"⟩ ⟨"user", "2"⟩ rfl rfl

end SurrealCrud
